import Mathlib

/-!
Shallow embedding of the subscription/payment-provider core of the
10xbrainaiapp repository: the regional-gateway service (`src/lib/server/opaybd.ts`),
the payment router (`src/lib/server/payment-router.ts`), the pricing-plan admin
form actions (`src/routes/admin/settings/plans/...`), and the usage-tracking
service (whose source file is not part of the snapshot and is modelled from the
spec where noted).

Modelling conventions:
* Database rows are Lean structures; a database is lists of rows plus a fresh-id
  counter standing in for `randomUUID()`.  Drizzle `select ... where` with a
  single-row destructuring (`const [x] = ...`) is `List.find?`; `update ... where`
  is `List.map` guarded by the same condition; `insert` appends.
* JavaScript timestamps are epoch milliseconds as `Int` (UTC); `Date#setMonth`
  and `Date#setFullYear` are implemented with the proleptic-Gregorian civil
  calendar, including the day-overflow normalisation of ECMAScript `MakeDay`.
* JavaScript string falsiness (`undefined`/`""`) is modelled by `Option String`
  with `""` also falsy, or by `""` alone where the source never distinguishes
  the two.  JSON fields absent after `JSON.parse` are modelled as `""`.
* Monetary callback amounts are rationals (`ℚ`), `Math.round` is
  floor (x + 1/2), and `Math.ceil` of an exact division is the rational ceiling.
* Network and collaborator responses (remote verification, Stripe SDK results,
  the settings store) are explicit inputs; fallible operations return `Except`.
-/

/-- Truthiness of a JS `string | undefined`: `undefined` and `""` are falsy. -/
def truthyStr : Option String → Bool
  | none => false
  | some s => s != ""

/-- Semantics of JS `a || b` for a `string | undefined` value with a string default. -/
def strOr (a : Option String) (b : String) : String :=
  match a with
  | none => b
  | some s => if s == "" then b else s

/-- Whitespace recognised by the JS `trim`/`parseInt` model
(space, tab, line feed, carriage return). -/
def jsWhitespaceChar (c : Char) : Bool :=
  c == ' ' || c == '\t' || c == '\n' || c == '\r'

/-- Semantics of JS `String#trim`: strip leading and trailing whitespace
(implemented on the character list). -/
def jsTrim (s : String) : String :=
  ⟨((s.data.dropWhile jsWhitespaceChar).reverse.dropWhile jsWhitespaceChar).reverse⟩

/-- Semantics of JS `parseInt(s)` in base 10: skip leading whitespace, an
optional sign, then the longest run of leading decimal digits; `none` models
`NaN`. -/
def jsParseInt (s : String) : Option Int :=
  let cs := s.data.dropWhile jsWhitespaceChar
  let sign : Int := match cs with
    | c :: _ => if c == '-' then -1 else 1
    | [] => 1
  let rest := match cs with
    | c :: t => if c == '-' || c == '+' then t else cs
    | [] => []
  let digits := rest.takeWhile Char.isDigit
  if digits.isEmpty then none
  else some (sign * Int.ofNat
    (digits.foldl (fun acc c => acc * 10 + (c.toNat - 48)) 0))

/-- Semantics of JS `Math.round` on an exact rational: floor (x + 1/2). -/
def jsRound (q : ℚ) : Int := Rat.floor (q + 1/2)

/-- Integer ceiling of `a / b` for `b > 0`, the exact value of JS
`Math.ceil(a / b)` on integer inputs. -/
def ceilDiv (a b : Int) : Int := -(Int.fdiv (-a) b)

/-! ### JS `Date` month/year arithmetic (UTC, proleptic Gregorian) -/

/-- Milliseconds per civil day. -/
def msPerDay : Int := 86400000

/-- Days from the civil epoch 1970-01-01 for a civil date (month `1..12`),
the standard `days_from_civil` algorithm. -/
def daysFromCivil (y m d : Int) : Int :=
  let y1 := if m ≤ 2 then y - 1 else y
  let era := Int.fdiv y1 400
  let yoe := y1 - era * 400
  let mp := Int.emod (m + 9) 12
  let doy := Int.fdiv (153 * mp + 2) 5 + d - 1
  let doe := yoe * 365 + Int.fdiv yoe 4 - Int.fdiv yoe 100 + doy
  era * 146097 + doe - 719468

/-- Civil date (year, month `1..12`, day) from days since 1970-01-01,
the standard `civil_from_days` algorithm. -/
def civilFromDays (z0 : Int) : Int × Int × Int :=
  let z := z0 + 719468
  let era := Int.fdiv z 146097
  let doe := z - era * 146097
  let yoe := Int.fdiv (doe - Int.fdiv doe 1460 + Int.fdiv doe 36524 - Int.fdiv doe 146096) 365
  let y := yoe + era * 400
  let doy := doe - (365 * yoe + Int.fdiv yoe 4 - Int.fdiv yoe 100)
  let mp := Int.fdiv (5 * doy + 2) 153
  let d := doy - Int.fdiv (153 * mp + 2) 5 + 1
  let m := if mp < 10 then mp + 3 else mp - 9
  (if m ≤ 2 then y + 1 else y, m, d)

/-- ECMAScript `MakeDay(y, m0, d)` with `m0` a 0-based month that may overflow
into adjacent years and `d` a day-of-month that may overflow into adjacent
months; returns days since the epoch. -/
def jsMakeDay (y m0 d : Int) : Int :=
  let ym := y + Int.fdiv m0 12
  let mn := Int.emod m0 12
  daysFromCivil ym (mn + 1) 1 + (d - 1)

/-- Semantics of `const e = new Date(t); e.setMonth(e.getMonth() + 1)`:
advance the calendar month by one, ECMAScript overflow rules, UTC. -/
def jsAddOneMonth (t : Int) : Int :=
  let days := Int.fdiv t msPerDay
  let tod := Int.emod t msPerDay
  let c := civilFromDays days
  jsMakeDay c.1 (c.2.1 - 1 + 1) c.2.2 * msPerDay + tod

/-- Semantics of `const e = new Date(t); e.setFullYear(e.getFullYear() + 1)`:
advance the calendar year by one, UTC. -/
def jsAddOneYear (t : Int) : Int :=
  let days := Int.fdiv t msPerDay
  let tod := Int.emod t msPerDay
  let c := civilFromDays days
  jsMakeDay (c.1 + 1) (c.2.1 - 1) c.2.2 * msPerDay + tod

/-- Period-end computation of `handlePaymentSuccess` (opaybd.ts lines 186-191):
one year ahead when the billing interval is `"year"`, else one month ahead. -/
def computePeriodEnd (now : Int) (billingInterval : String) : Int :=
  if billingInterval == "year" then jsAddOneYear now else jsAddOneMonth now

/-! ### Data model (db/schema.ts) -/

/-- Row of the `user` table (the fields this core reads or writes); a missing
`name` is modelled as `""` (falsy either way in the source). -/
structure User where
  id : String
  name : String
  email : String
  planTier : String
  subscriptionStatus : String
deriving Repr, DecidableEq

/-- Row of the `pricing_plan` table.  `priceAmountBdt` is nullable
(BDT paisa); the four generation limits are nullable (`null` = unlimited). -/
structure Plan where
  id : String
  name : String
  tier : String
  stripePriceId : String
  priceAmount : Int
  priceAmountBdt : Option Int
  currency : String
  billingInterval : String
  textGenerationLimit : Option Int
  imageGenerationLimit : Option Int
  videoGenerationLimit : Option Int
  audioGenerationLimit : Option Int
  features : List String
  isActive : Bool
  updatedAt : Int
deriving Repr, DecidableEq

/-- Row of the `subscription` table; ids are drawn from the database's
fresh-id counter in place of `randomUUID()`. -/
structure Subscription where
  id : Nat
  userId : String
  stripeSubscriptionId : String
  stripePriceId : String
  planTier : String
  previousPlanTier : Option String
  status : String
  currentPeriodStart : Int
  currentPeriodEnd : Int
  planChangedAt : Option Int
  paymentProvider : String
  opayTransactionId : Option String
  renewalRequired : Bool
  lastPaymentAmount : Option Int
  updatedAt : Int
deriving Repr, DecidableEq

/-- Row of the `payment_history` table (the fields written by the Opaybd path). -/
structure PaymentRecord where
  userId : String
  subscriptionId : Option Nat
  amount : Int
  currency : String
  status : String
  description : String
  paymentProvider : String
  opayTransactionId : Option String
  opayPaymentMethod : String
  opayPaymentFee : Int
  paidAt : Int
deriving Repr, DecidableEq

/-- Database state: the four tables this core touches plus a fresh-id counter
standing in for `randomUUID()` generation on insert. -/
structure DB where
  users : List User
  subscriptions : List Subscription
  pricingPlans : List Plan
  paymentHistory : List PaymentRecord
  nextId : Nat
deriving Repr

/-! ### Opaybd service (src/lib/server/opaybd.ts) -/

/-- Callback parameters of `handlePaymentSuccess` (opaybd.ts lines 17-23);
the monetary fields are JS numbers, modelled as exact rationals. -/
structure OpayCallbackParams where
  transactionId : String
  paymentMethod : String
  paymentAmount : ℚ
  paymentFee : ℚ

/-- Decoded shape of the `meta_data` JSON attached to an Opaybd payment
(opaybd.ts lines 32-39 and 90-97); a field absent from the decoded JSON is
modelled as `""` (indistinguishable from the empty string in every use the
source makes of these fields). -/
structure OpayMetadataFields where
  userId : String
  planId : String
  priceId : String
  planTier : String
  originalAmountCents : Int
  billingInterval : String
deriving Repr, DecidableEq

/-- Metadata value as seen by callers of `verifyPayment`: either the decoded
object, or — when `JSON.parse` failed — the raw unparsed string left in place
(opaybd.ts lines 153-160). -/
inductive OpayMetaValue where
  | decoded (m : OpayMetadataFields)
  | raw (s : String)
deriving Repr, DecidableEq

/-- Verification response as delivered by the remote API: the `metadata` field
arrives as a JSON-encoded string; `metadataJson` records the outcome `JSON.parse`
would have on it (`.ok` = parses to the decoded fields, `.error s` = the parse
throws, leaving the raw string `s`).  The parse algorithm itself is not
re-implemented; its outcome is part of the environment. -/
structure OpayWireVerification where
  status : String
  cus_name : String
  cus_email : String
  amount : String
  transaction_id : String
  payment_method : String
  metadataJson : Except String OpayMetadataFields
deriving Repr

/-- Verification result after `verifyPayment` post-processing
(opaybd.ts lines 25-40). -/
structure OpayVerificationResult where
  status : String
  cus_name : String
  cus_email : String
  amount : String
  transaction_id : String
  payment_method : String
  metadata : OpayMetaValue
deriving Repr

namespace OpayService

/-- Metadata-decoding step of `OpayService.verifyPayment` (opaybd.ts lines
151-162): a string `metadata` field is `JSON.parse`d; on parse failure the
error is logged, not thrown, and the raw string is left in place. -/
def verifyPayment (wire : OpayWireVerification) : OpayVerificationResult :=
  { status := wire.status
    cus_name := wire.cus_name
    cus_email := wire.cus_email
    amount := wire.amount
    transaction_id := wire.transaction_id
    payment_method := wire.payment_method
    metadata := match wire.metadataJson with
      | .ok m => .decoded m
      | .error s => .raw s }

/-- Truth of the JS guard `!metadata?.userId || !metadata?.planTier`
(opaybd.ts line 179): a raw (undecoded) metadata string has no `userId`
property, and a decoded object fails the guard when either field is falsy. -/
def metadataInvalid : OpayMetaValue → Bool
  | .raw _ => true
  | .decoded m => m.userId == "" || m.planTier == ""

/-- Predicate matching the subscription lookup of `handlePaymentSuccess`
(opaybd.ts lines 194-200): the user's subscription with payment provider
`opaybd`. -/
def isOpaySubOf (userId : String) (s : Subscription) : Bool :=
  s.userId == userId && s.paymentProvider == "opaybd"

/-- Updated form of an existing Opaybd subscription row as written by the
update branch of `handlePaymentSuccess` (opaybd.ts lines 205-223). -/
def renewedOpaySub (e : Subscription) (m : OpayMetadataFields)
    (params : OpayCallbackParams) (now : Int) : Subscription :=
  { e with
    stripePriceId := m.priceId
    planTier := m.planTier
    previousPlanTier := some e.planTier
    status := "active"
    currentPeriodStart := now
    currentPeriodEnd := computePeriodEnd now m.billingInterval
    renewalRequired := false
    opayTransactionId := some params.transactionId
    lastPaymentAmount := some (jsRound (params.paymentAmount * 100))
    planChangedAt := if e.planTier != m.planTier then some now else e.planChangedAt
    updatedAt := now }

/-- New subscription row as inserted by `handlePaymentSuccess` when the user
has no existing Opaybd subscription (opaybd.ts lines 227-239); `freshId`
stands in for `randomUUID()`. -/
def newOpaySub (m : OpayMetadataFields) (params : OpayCallbackParams)
    (now : Int) (freshId : Nat) : Subscription :=
  { id := freshId
    userId := m.userId
    stripeSubscriptionId := "opay_" ++ params.transactionId
    stripePriceId := m.priceId
    planTier := m.planTier
    previousPlanTier := none
    status := "active"
    currentPeriodStart := now
    currentPeriodEnd := computePeriodEnd now m.billingInterval
    planChangedAt := none
    paymentProvider := "opaybd"
    opayTransactionId := some params.transactionId
    renewalRequired := false
    lastPaymentAmount := some (jsRound (params.paymentAmount * 100))
    updatedAt := now }

/-- Embedding of `OpayService.handlePaymentSuccess` (opaybd.ts lines 168-277).
The remote verification response is the explicit input `verifyResp`
(`.error` = `verifyPayment` threw); `now` is the current epoch-ms time.
Returns the thrown error message or `()` together with the database after
whatever writes committed (every throw in the source happens before the first
write, so an error leaves the database unchanged). -/
def handlePaymentSuccess (verifyResp : Except String OpayWireVerification)
    (params : OpayCallbackParams) (now : Int) (db : DB) :
    Except String Unit × DB :=
  match verifyResp with
  | .error e => (.error e, db)
  | .ok wire =>
    let verification := verifyPayment wire
    if verification.status != "COMPLETED" then
      (.error ("Payment not completed. Status: " ++ verification.status), db)
    else
      match verification.metadata with
      | .raw _ => (.error "Invalid payment metadata", db)
      | .decoded m =>
        if m.userId == "" || m.planTier == "" then
          (.error "Invalid payment metadata", db)
        else
          let existingSub := db.subscriptions.find? (isOpaySubOf m.userId)
          let amountCents := jsRound (params.paymentAmount * 100)
          let feeCents := jsRound (params.paymentFee * 100)
          let db1 :=
            match existingSub with
            | some e =>
              { db with subscriptions := db.subscriptions.map (fun (s : Subscription) =>
                  if s.id == e.id then renewedOpaySub e m params now else s) }
            | none =>
              { db with
                subscriptions := db.subscriptions ++ [newOpaySub m params now db.nextId]
                nextId := db.nextId + 1 }
          let db2 :=
            { db1 with users := db1.users.map (fun (u : User) =>
                if u.id == m.userId then
                  { u with subscriptionStatus := "active", planTier := m.planTier }
                else u) }
          let subForHistory := db2.subscriptions.find? (isOpaySubOf m.userId)
          let db3 :=
            { db2 with paymentHistory := db2.paymentHistory ++ [({
                userId := m.userId
                subscriptionId := subForHistory.map (·.id)
                amount := amountCents
                currency := "bdt"
                status := "succeeded"
                description := "Subscription payment for " ++ m.planTier ++ " plan"
                paymentProvider := "opaybd"
                opayTransactionId := some params.transactionId
                opayPaymentMethod := params.paymentMethod
                opayPaymentFee := feeCents
                paidAt := now } : PaymentRecord)] }
          (.ok (), db3)

/-- Embedding of `OpayService.getSubscriptionNeedingRenewal`
(opaybd.ts lines 283-295): the user's `opaybd` subscription with
`renewalRequired = true` and `status = "active"`, or `null`. -/
def getSubscriptionNeedingRenewal (db : DB) (userId : String) : Option Subscription :=
  db.subscriptions.find? (fun s =>
    s.userId == userId && s.paymentProvider == "opaybd" &&
    s.renewalRequired == true && s.status == "active")

/-- Selection predicate of `markExpiredSubscriptionsForRenewal`
(opaybd.ts lines 308-313): active, not-yet-flagged `opaybd` subscriptions
whose period end is strictly before `now`. -/
def isExpiredUnflagged (now : Int) (s : Subscription) : Bool :=
  s.paymentProvider == "opaybd" && s.status == "active" &&
  s.renewalRequired == false && decide (s.currentPeriodEnd < now)

/-- Embedding of `OpayService.markExpiredSubscriptionsForRenewal`
(opaybd.ts lines 301-334): count the matching subscriptions; if none, return 0
without touching the database, else set `renewalRequired := true` and
`updatedAt := now` on exactly the matching rows and return the count. -/
def markExpiredSubscriptionsForRenewal (db : DB) (now : Int) : DB × Nat :=
  let expired := db.subscriptions.filter (isExpiredUnflagged now)
  if expired.length = 0 then (db, 0)
  else
    ({ db with subscriptions := db.subscriptions.map (fun s =>
        if isExpiredUnflagged now s then
          { s with renewalRequired := true, updatedAt := now }
        else s) },
     expired.length)

/-- Embedding of `OpayService.getActiveSubscription` (opaybd.ts lines 339-363):
the user's active `opaybd` subscription together with its plan looked up by
Stripe price id (`null` plan tolerated), or `null`. -/
def getActiveSubscription (db : DB) (userId : String) :
    Option (Subscription × Option Plan) :=
  match db.subscriptions.find? (fun s =>
      s.userId == userId && s.paymentProvider == "opaybd" && s.status == "active") with
  | none => none
  | some sub =>
    some (sub, db.pricingPlans.find? (fun p => p.stripePriceId == sub.stripePriceId))

/-- Opaybd settings as returned by `getOpaySettings`; a missing API key is the
empty string (falsy either way under `!!settings.apiKey`). -/
structure OpaySettings where
  apiKey : String
deriving Repr, DecidableEq

/-- Embedding of `OpayService.isConfigured` (opaybd.ts lines 368-375):
true iff `getOpaySettings` succeeds and yields a truthy API key; an exception
from the settings store yields false. -/
def isConfigured (settings : Except String OpaySettings) : Bool :=
  match settings with
  | .ok s => s.apiKey != ""
  | .error _ => false

/-- Embedding of the database-and-pricing part of `OpayService.createPayment`
(opaybd.ts lines 63-97): after the user and plan lookups, the amount placed in
the payment-creation request is the BDT price divided by 100 when configured,
else the USD price divided by 100 with a logged warning.  Returns the amount
and whether the fallback warning fired; the HTTP request assembly and response
handling (lines 99-130) are outside the decided claims and omitted. -/
def createPayment (db : DB) (userId planId : String) : Except String (ℚ × Bool) :=
  match db.users.find? (fun u => u.id == userId) with
  | none => .error "User not found"
  | some _ =>
    match db.pricingPlans.find? (fun p => p.id == planId) with
    | none => .error "Pricing plan not found"
    | some plan =>
      match plan.priceAmountBdt with
      | some bdt => .ok ((bdt : ℚ) / 100, false)
      | none => .ok ((plan.priceAmount : ℚ) / 100, true)

end OpayService

/-! ### Payment router (src/lib/server/payment-router.ts) -/

/-- Network calls the checkout path can make (for stating "performs no
network call"). -/
inductive NetworkCall where
  | opayCreatePayment
  | stripeCreateSession
deriving Repr, DecidableEq

/-- Stripe checkout session as returned by the Stripe SDK
(the fields payment-router.ts lines 81-85 reads); `client_secret` is nullable. -/
structure StripeSession where
  client_secret : Option String
  id : String
deriving Repr, DecidableEq

/-- Environment of `createCheckoutSession`: the active-provider setting (the
raw string `getActivePaymentProvider` resolves to, `"stripe"` by default), the
Opaybd settings-store outcome, and the outcomes the two gateway calls would
have if made (`opayPaymentUrl` is the `payment_url` of a successful
`OpayService.createPayment`, `stripeSession` the Stripe SDK session). -/
structure CheckoutEnv where
  activeProvider : String
  opaySettings : Except String OpayService.OpaySettings
  opayPaymentUrl : Except String String
  stripeSession : Except String StripeSession

/-- Provider-discriminated checkout response (payment-router.ts lines 7-14);
fields of the non-active provider stay unset. -/
structure CheckoutResult where
  provider : String
  clientSecret : Option String
  sessionId : Option String
  paymentUrl : Option String
deriving Repr, DecidableEq

namespace PaymentRouter

/-- Configuration-error message thrown by the `opaybd` branch of
`createCheckoutSession` (payment-router.ts line 49). -/
def opayNotConfiguredMsg : String :=
  "Opaybd is selected but not configured. Please configure Opaybd credentials in Admin > Payment Methods."

/-- Embedding of `PaymentRouter.createCheckoutSession` (payment-router.ts
lines 40-86).  Returns the thrown error or the checkout result, together with
the list of gateway network calls performed.  The `opaybd` branch checks
`OpayService.isConfigured` before any gateway call; any provider value other
than `"opaybd"` falls through to the Stripe branch, whose `clientSecret` is
`session.client_secret || undefined`. -/
def createCheckoutSession (env : CheckoutEnv) :
    Except String CheckoutResult × List NetworkCall :=
  if env.activeProvider == "opaybd" then
    if !(OpayService.isConfigured env.opaySettings) then
      (.error opayNotConfiguredMsg, [])
    else
      match env.opayPaymentUrl with
      | .error e => (.error e, [.opayCreatePayment])
      | .ok url =>
        (.ok { provider := "opaybd"
               clientSecret := none
               sessionId := none
               paymentUrl := some url },
         [.opayCreatePayment])
  else
    match env.stripeSession with
    | .error e => (.error e, [.stripeCreateSession])
    | .ok session =>
      (.ok { provider := "stripe"
             clientSecret := match session.client_secret with
               | none => none
               | some cs => if cs == "" then none else some cs
             sessionId := some session.id
             paymentUrl := none },
       [.stripeCreateSession])

/-- Provider-annotated result of the router's active-subscription lookup
(payment-router.ts lines 91-111); the Stripe service's payload shape is
outside the snapshot and kept abstract as `α`. -/
inductive AnnotatedSubscription (α : Type) where
  | stripe (payload : α)
  | opaybd (sub : Subscription) (plan : Option Plan)
deriving Repr, DecidableEq

/-- Provider annotation attached by `getActiveSubscription`. -/
def AnnotatedSubscription.provider {α : Type} : AnnotatedSubscription α → String
  | .stripe _ => "stripe"
  | .opaybd _ _ => "opaybd"

/-- Embedding of `PaymentRouter.getActiveSubscription` (payment-router.ts
lines 91-111): Stripe is queried first (its result `stripeResult` is an
environment input, the service source being outside the snapshot); only when
it is absent is the Opaybd lookup consulted; `none` when both are absent. -/
def getActiveSubscription {α : Type} (stripeResult : Option α) (db : DB)
    (userId : String) : Option (AnnotatedSubscription α) :=
  match stripeResult with
  | some s => some (.stripe s)
  | none =>
    match OpayService.getActiveSubscription db userId with
    | some (sub, plan) => some (.opaybd sub plan)
    | none => none

/-- Renewal banner payload of `checkRenewalRequired`
(payment-router.ts lines 117-139). -/
structure RenewalInfo where
  planTier : String
  daysRemaining : Int
  expiresAt : Int
deriving Repr, DecidableEq

/-- Embedding of `PaymentRouter.checkRenewalRequired` (payment-router.ts
lines 117-139): `null` when no Opaybd subscription is flagged for renewal;
else the plan tier (`|| 'unknown'`), `Math.ceil((periodEnd - now) / 86400000)`
days remaining, and the expiry timestamp.  A pure read: the database is not
part of the result type. -/
def checkRenewalRequired (db : DB) (userId : String) (now : Int) :
    Option RenewalInfo :=
  match OpayService.getSubscriptionNeedingRenewal db userId with
  | none => none
  | some sub =>
    some { planTier := if sub.planTier == "" then "unknown" else sub.planTier
           daysRemaining := ceilDiv (sub.currentPeriodEnd - now) 86400000
           expiresAt := sub.currentPeriodEnd }

end PaymentRouter

/-! ### Pricing-plan admin update action
(src/routes/admin/settings/plans/[id]/+page.server.ts) -/

/-- Form fields of the plan update action as read by `data.get(..)?.toString()`
(lines 47-59); `none` models an absent field, `isActive` is the checkbox
comparison `=== 'on'` already performed. -/
structure PlanForm where
  name : Option String
  tier : Option String
  stripePriceId : Option String
  priceAmount : Option String
  priceAmountBdt : Option String
  currency : Option String
  billingInterval : Option String
  textGenerationLimit : Option String
  imageGenerationLimit : Option String
  videoGenerationLimit : Option String
  audioGenerationLimit : Option String
  features : Option String
  isActive : Bool

/-- Parsing of the optional BDT price field (lines 139-161 of the update
action, identically lines 110-132 of the create action): a falsy or
whitespace-only field stores `null`; otherwise `parseInt`, rejecting `NaN`
and negatives. -/
def parseBdtField (field : Option String) : Except String (Option Int) :=
  match field with
  | none => .ok none
  | some s =>
    if s == "" || jsTrim s == "" then .ok none
    else
      match jsParseInt s with
      | none => .error "BDT price amount must be a valid positive number"
      | some n =>
        if n < 0 then .error "BDT price amount must be a valid positive number"
        else .ok (some n)

/-- Parsing of one nullable generation-limit field (lines 165-168 with the
`!isNaN` re-check of lines 191-194): empty or absent stores `null`, and an
unparsable value also silently stores `null`. -/
def parseLimitField (field : Option String) : Option Int :=
  match field with
  | none => none
  | some s =>
    if s == "" then none
    else jsParseInt s

/-- Parsing of the features textarea (lines 171-178): split on newlines,
trim, drop empties; a falsy field yields the empty list. -/
def parseFeatures (field : Option String) : List String :=
  match field with
  | none => []
  | some s =>
    if s == "" then []
    else ((s.splitOn "\n").map String.trim).filter (fun f => f.length > 0)

/-- Embedding of the `update` form action of
`admin/settings/plans/[id]/+page.server.ts` (lines 31-226): demo-mode guard,
required-field/enum/price validations in source order, then the in-place
update of the plan row; `.ok` is the success redirect. -/
def updatePlanAction (demoMode : Bool) (db : DB) (planId : String)
    (form : PlanForm) (now : Int) : Except String DB :=
  if demoMode then .error "Demo mode: admin settings cannot be saved"
  else if !truthyStr form.name || !truthyStr form.tier ||
      !truthyStr form.stripePriceId || !truthyStr form.priceAmount ||
      !truthyStr form.billingInterval then
    .error "Required fields are missing"
  else if !(["free", "starter", "pro", "advanced"].contains (form.tier.getD "")) then
    .error "Invalid tier selected"
  else if !(["month", "year"].contains (form.billingInterval.getD "")) then
    .error "Invalid billing interval selected"
  else
    match jsParseInt (form.priceAmount.getD "") with
    | none => .error "Price amount must be a valid positive number"
    | some priceAmountNum =>
      if priceAmountNum < 0 then .error "Price amount must be a valid positive number"
      else
        match parseBdtField form.priceAmountBdt with
        | .error e => .error e
        | .ok priceAmountBdtNum =>
          .ok { db with pricingPlans := db.pricingPlans.map (fun (p : Plan) =>
            if p.id == planId then
              { p with
                name := form.name.getD ""
                tier := form.tier.getD ""
                stripePriceId := form.stripePriceId.getD ""
                priceAmount := priceAmountNum
                priceAmountBdt := priceAmountBdtNum
                currency := strOr form.currency "usd"
                billingInterval := form.billingInterval.getD ""
                textGenerationLimit := parseLimitField form.textGenerationLimit
                imageGenerationLimit := parseLimitField form.imageGenerationLimit
                videoGenerationLimit := parseLimitField form.videoGenerationLimit
                audioGenerationLimit := parseLimitField form.audioGenerationLimit
                features := parseFeatures form.features
                isActive := form.isActive
                updatedAt := now }
            else p) }

/-- Read-back of a plan row as the page `load` does (lines 14-22):
select by id. -/
def loadPlan (db : DB) (planId : String) : Option Plan :=
  db.pricingPlans.find? (fun p => p.id == planId)

/-! ### Usage-tracking service (spec-modelled)

Modelled from the spec: `src/lib/server/usage-tracking.ts` is not part of the
source snapshot — only its callers (the generation API routes) and the
`usage_tracking` schema are — so the service is modelled from spec section 4.3
and the schema. -/

/-- Usage categories metered by the service (spec glossary: one of
text/image/video/audio generation). -/
inductive UsageCategory where
  | text
  | image
  | video
  | audio
deriving Repr, DecidableEq

/-- Row of the `usage_tracking` table: one row per (user, month, year) —
unique on that triple — with four independent counters. -/
structure UsageRow where
  userId : String
  month : Int
  year : Int
  textGenerationCount : Int
  imageGenerationCount : Int
  videoGenerationCount : Int
  audioGenerationCount : Int
deriving Repr, DecidableEq

/-- Plan limit for a category (`null` = unlimited, `0` = no access). -/
def Plan.limitFor (p : Plan) : UsageCategory → Option Int
  | .text => p.textGenerationLimit
  | .image => p.imageGenerationLimit
  | .video => p.videoGenerationLimit
  | .audio => p.audioGenerationLimit

/-- Counter of a usage row for a category. -/
def UsageRow.countFor (r : UsageRow) : UsageCategory → Int
  | .text => r.textGenerationCount
  | .image => r.imageGenerationCount
  | .video => r.videoGenerationCount
  | .audio => r.audioGenerationCount

/-- Usage row with one category counter incremented. -/
def UsageRow.increment (r : UsageRow) : UsageCategory → UsageRow
  | .text => { r with textGenerationCount := r.textGenerationCount + 1 }
  | .image => { r with imageGenerationCount := r.imageGenerationCount + 1 }
  | .video => { r with videoGenerationCount := r.videoGenerationCount + 1 }
  | .audio => { r with audioGenerationCount := r.audioGenerationCount + 1 }

/-- Typed error thrown by `checkUsageLimit`, carrying the remaining quota
(always `0` in the failing case) for the caller's limit-reached UI. -/
structure UsageLimitError where
  message : String
  remainingQuota : Int
deriving Repr, DecidableEq

namespace UsageTrackingService

/-- Key of the unique (user, month, year) constraint. -/
def rowMatches (userId : String) (month year : Int) (r : UsageRow) : Bool :=
  r.userId == userId && r.month == month && r.year == year

/-- Current counter value for a user's (month, year) row and category, the
row being implicitly treated as zero before its lazy creation (spec 4.3). -/
def currentCount (rows : List UsageRow) (userId : String) (month year : Int)
    (c : UsageCategory) : Int :=
  match rows.find? (rowMatches userId month year) with
  | none => 0
  | some r => r.countFor c

/-- Modelled from the spec (section 4.3, `checkUsageLimit`): load the current
month's counter (zero when the row does not exist yet) and the plan's limit
for the category; if the limit is non-null and the counter has reached it,
fail with a typed usage-limit error whose remaining quota is clamped at zero;
otherwise return normally without mutating anything. -/
def checkUsageLimit (rows : List UsageRow) (plan : Plan) (userId : String)
    (month year : Int) (c : UsageCategory) : Except UsageLimitError Unit :=
  match plan.limitFor c with
  | none => .ok ()
  | some limit =>
    let count := currentCount rows userId month year c
    if limit ≤ count then
      .error { message := "Usage limit exceeded"
               remainingQuota := max (limit - count) 0 }
    else .ok ()

/-- Modelled from the spec (section 4.3, `trackUsage`): increment the
category's counter for the current (user, month, year) row, creating the row
when absent (upsert keyed on the unique triple). -/
def trackUsage (rows : List UsageRow) (userId : String) (month year : Int)
    (c : UsageCategory) : List UsageRow :=
  match rows.find? (rowMatches userId month year) with
  | some _ =>
    rows.map (fun r =>
      if rowMatches userId month year r then r.increment c else r)
  | none =>
    rows ++ [UsageRow.increment
      { userId := userId, month := month, year := year
        textGenerationCount := 0, imageGenerationCount := 0
        videoGenerationCount := 0, audioGenerationCount := 0 } c]

/-- Result of `n` successive `trackUsage` calls for one key and category. -/
def trackN (rows : List UsageRow) (userId : String) (month year : Int)
    (c : UsageCategory) : Nat → List UsageRow
  | 0 => rows
  | n + 1 => trackUsage (trackN rows userId month year c n) userId month year c

end UsageTrackingService

/-! ### Witness fixtures -/

/-- Renewal-flagged subscription fixture for the C7 witness. -/
def renewalFixtureSub (tier : String) (periodEnd : Int) : Subscription :=
  { id := 0, userId := "u1", stripeSubscriptionId := "opay_t1",
    stripePriceId := "price_1", planTier := tier,
    previousPlanTier := none, status := "active",
    currentPeriodStart := 0, currentPeriodEnd := periodEnd,
    planChangedAt := none, paymentProvider := "opaybd",
    opayTransactionId := some "t1", renewalRequired := true,
    lastPaymentAmount := some 500, updatedAt := 0 }

/-- Database fixture for the C7 witness. -/
def renewalFixtureDb (tier : String) (periodEnd : Int) : DB :=
  { users := [], pricingPlans := [], paymentHistory := [], nextId := 1,
    subscriptions := [renewalFixtureSub tier periodEnd] }

/-- Form fixture for the C8 witness: valid required fields, whitespace-only
BDT price field. -/
def c8Form : PlanForm :=
  { name := some "Pro", tier := some "pro", stripePriceId := some "price_1",
    priceAmount := some "2999", priceAmountBdt := some "  ",
    currency := some "usd", billingInterval := some "month",
    textGenerationLimit := some "100", imageGenerationLimit := none,
    videoGenerationLimit := none, audioGenerationLimit := some "",
    features := none, isActive := true }

/-- Plan fixture for the C8 witness, initially carrying a BDT price. -/
def c8Plan : Plan :=
  { id := "plan1", name := "Old", tier := "free", stripePriceId := "price_0",
    priceAmount := 100, priceAmountBdt := some 5000, currency := "usd",
    billingInterval := "month", textGenerationLimit := none,
    imageGenerationLimit := none, videoGenerationLimit := none,
    audioGenerationLimit := none, features := [], isActive := true,
    updatedAt := 0 }

/-- Database fixture for the C8 witness. -/
def c8Db : DB :=
  { users := [{ id := "u1", name := "N", email := "e@x", planTier := "free",
                subscriptionStatus := "none" }],
    subscriptions := [], pricingPlans := [c8Plan], paymentHistory := [],
    nextId := 0 }

/-- Plan fixture for the C2 witness: audio limit 2, null (unlimited) text
limit. -/
def c2Plan : Plan :=
  { id := "plan2", name := "Starter", tier := "starter", stripePriceId := "price_2",
    priceAmount := 999, priceAmountBdt := none, currency := "usd",
    billingInterval := "month", textGenerationLimit := none,
    imageGenerationLimit := some 10, videoGenerationLimit := some 0,
    audioGenerationLimit := some 2, features := [], isActive := true,
    updatedAt := 0 }

/-- Usage row fixture for the C2 witness: a huge text counter. -/
def c2BigRow : UsageRow :=
  { userId := "u1", month := 5, year := 2024, textGenerationCount := 1000000,
    imageGenerationCount := 0, videoGenerationCount := 0,
    audioGenerationCount := 0 }

/-- Subscription fixture for the C9 witness: expired, unflagged, active
Opaybd subscription. -/
def c9Expired : Subscription :=
  { id := 0, userId := "u1", stripeSubscriptionId := "opay_t1",
    stripePriceId := "price_1", planTier := "pro", previousPlanTier := none,
    status := "active", currentPeriodStart := 0, currentPeriodEnd := 1000,
    planChangedAt := none, paymentProvider := "opaybd",
    opayTransactionId := some "t1", renewalRequired := false,
    lastPaymentAmount := some 500, updatedAt := 0 }

/-- Subscription fixture for the C9 witness: a Stripe subscription the sweep
must not touch. -/
def c9Stripe : Subscription :=
  { id := 1, userId := "u2", stripeSubscriptionId := "sub_2",
    stripePriceId := "price_1", planTier := "free", previousPlanTier := none,
    status := "active", currentPeriodStart := 0, currentPeriodEnd := 1000,
    planChangedAt := none, paymentProvider := "stripe",
    opayTransactionId := none, renewalRequired := false,
    lastPaymentAmount := none, updatedAt := 0 }

/-- Projection of subscription rows to (period end, id) pairs, used to state
witnesses without binders. -/
def subPeriodEndsAndIds (l : List Subscription) : List (Int × Nat) :=
  l.map (fun s => (s.currentPeriodEnd, s.id))

/-- Metadata fixture for the C3 witness. -/
def c3Meta : OpayMetadataFields :=
  { userId := "u1", planId := "p1", priceId := "pr1", planTier := "pro",
    originalAmountCents := 2999, billingInterval := "month" }

/-- Wire-verification fixture for the C3 witness: completed, decoded
metadata. -/
def c3Wire : OpayWireVerification :=
  { status := "COMPLETED", cus_name := "n", cus_email := "e", amount := "500",
    transaction_id := "t1", payment_method := "bKash",
    metadataJson := .ok c3Meta }

/-- Callback-parameter fixture for the C3 witness. -/
def c3Params : OpayCallbackParams :=
  { transactionId := "t1", paymentMethod := "bKash", paymentAmount := 5,
    paymentFee := 0 }

/-- Database fixture for the C3 witness: no subscriptions yet. -/
def c3Db : DB :=
  { users := [{ id := "u1", name := "N", email := "e@x", planTier := "free",
                subscriptionStatus := "none" }],
    subscriptions := [], pricingPlans := [], paymentHistory := [], nextId := 0 }

/-! ### Helper lemmas -/

/-- Mapping a function that fixes every element of a list leaves it unchanged. -/
theorem map_id_of_mem {α : Type} (f : α → α) (l : List α)
    (h : ∀ x ∈ l, f x = x) : l.map f = l := by
  induction l with
  | nil => rfl
  | cons a t ih =>
    simp only [List.map_cons, h a (List.mem_cons_self a t),
      ih (fun x hx => h x (List.mem_cons_of_mem a hx))]

/-! ### Claim C1 -/

/-- C1: `handlePaymentSuccess` re-verifies the payment and, whenever the
verification result's status is anything other than `"COMPLETED"`, throws
`Payment not completed. Status: ...` with the database exactly as it was —
no subscription insert or update, no user-field change, no payment-history
row. -/
theorem C1_verification_gate_no_writes
    (wire : OpayWireVerification) (params : OpayCallbackParams)
    (now : Int) (db : DB) (h : wire.status ≠ "COMPLETED") :
    OpayService.handlePaymentSuccess (.ok wire) params now db =
      (.error ("Payment not completed. Status: " ++ wire.status), db) := by
  simp [OpayService.handlePaymentSuccess, OpayService.verifyPayment, h]

/-- Witness for C1 at a concrete pending verification over a nonempty
database. -/
theorem C1_witness :
    OpayService.handlePaymentSuccess
      (.ok { status := "PENDING", cus_name := "n", cus_email := "e",
             amount := "500", transaction_id := "tx1", payment_method := "bKash",
             metadataJson := .ok { userId := "u1", planId := "p1", priceId := "pr1",
                                   planTier := "pro", originalAmountCents := 999,
                                   billingInterval := "month" } })
      { transactionId := "tx1", paymentMethod := "bKash",
        paymentAmount := 5, paymentFee := 0 }
      1700000000000
      { users := [{ id := "u1", name := "N", email := "e", planTier := "free",
                    subscriptionStatus := "inactive" }],
        subscriptions := [], pricingPlans := [], paymentHistory := [], nextId := 0 } =
      (.error "Payment not completed. Status: PENDING",
       { users := [{ id := "u1", name := "N", email := "e", planTier := "free",
                     subscriptionStatus := "inactive" }],
         subscriptions := [], pricingPlans := [], paymentHistory := [], nextId := 0 }) :=
  C1_verification_gate_no_writes _ _ _ _ (by decide)

/-! ### Claim C10 -/

/-- C10 (implicit): with a completed verification whose metadata fails the
`!metadata?.userId || !metadata?.planTier` guard — in particular when
`JSON.parse` of the metadata string failed and the raw unparsed string was
left in place — `handlePaymentSuccess` throws `Invalid payment metadata` and
performs no database writes, so a malformed metadata payload can never credit
a subscription. -/
theorem C10_metadata_guard_no_writes
    (wire : OpayWireVerification) (params : OpayCallbackParams)
    (now : Int) (db : DB) (hst : wire.status = "COMPLETED")
    (hbad : OpayService.metadataInvalid (OpayService.verifyPayment wire).metadata = true) :
    OpayService.handlePaymentSuccess (.ok wire) params now db =
      (.error "Invalid payment metadata", db) := by
  cases hjson : wire.metadataJson with
  | error s =>
    simp [OpayService.handlePaymentSuccess, OpayService.verifyPayment, hst, hjson]
  | ok m =>
    simp only [OpayService.verifyPayment, OpayService.metadataInvalid, hjson] at hbad
    simp [OpayService.handlePaymentSuccess, OpayService.verifyPayment, hst, hjson, hbad]

/-- Witness for C10 at a concrete completed verification whose metadata
string failed to parse (left raw). -/
theorem C10_witness :
    OpayService.handlePaymentSuccess
      (.ok { status := "COMPLETED", cus_name := "n", cus_email := "e",
             amount := "500", transaction_id := "tx2", payment_method := "Nagad",
             metadataJson := .error "not-json" })
      { transactionId := "tx2", paymentMethod := "Nagad",
        paymentAmount := 5, paymentFee := 0 }
      1700000000000
      { users := [], subscriptions := [], pricingPlans := [],
        paymentHistory := [], nextId := 3 } =
      (.error "Invalid payment metadata",
       { users := [], subscriptions := [], pricingPlans := [],
         paymentHistory := [], nextId := 3 }) :=
  C10_metadata_guard_no_writes _ _ _ _ (by decide) (by decide)

/-! ### Claim C4 -/

/-- C4: when the active provider resolves to `"opaybd"` and the regional
gateway is not configured (no truthy API key, or the settings store throws),
`createCheckoutSession` fails with the configuration error naming the missing
setup step and performs no payment-creation network call. -/
theorem C4_opaybd_unconfigured_no_network
    (env : CheckoutEnv) (h1 : env.activeProvider = "opaybd")
    (h2 : OpayService.isConfigured env.opaySettings = false) :
    PaymentRouter.createCheckoutSession env =
      (.error PaymentRouter.opayNotConfiguredMsg, []) := by
  simp [PaymentRouter.createCheckoutSession, h1, h2]

/-- Witness for C4 at a concrete environment with an empty API key. -/
theorem C4_witness :
    PaymentRouter.createCheckoutSession
      { activeProvider := "opaybd", opaySettings := .ok { apiKey := "" },
        opayPaymentUrl := .ok "https://pay.example/x",
        stripeSession := .ok { client_secret := some "cs", id := "sess_1" } } =
      (.error PaymentRouter.opayNotConfiguredMsg, []) :=
  C4_opaybd_unconfigured_no_network _ rfl (by decide)

/-! ### Claim C5 -/

/-- C5: every checkout whose active provider is not `"opaybd"` takes the
Stripe branch and (when the Stripe session is created, with its truthy client
secret) yields `provider = "stripe"` with `clientSecret` and `sessionId` set
and `paymentUrl` unset; conversely the configured `"opaybd"` branch yields
`provider = "opaybd"` with `paymentUrl` set and neither `clientSecret` nor
`sessionId`. -/
theorem C5_checkout_provider_shapes (env : CheckoutEnv) :
    (∀ (session : StripeSession) (cs : String),
      env.activeProvider ≠ "opaybd" →
      env.stripeSession = .ok session →
      session.client_secret = some cs → cs ≠ "" →
      PaymentRouter.createCheckoutSession env =
        (.ok { provider := "stripe", clientSecret := some cs,
               sessionId := some session.id, paymentUrl := none },
         [.stripeCreateSession])) ∧
    (∀ url : String,
      env.activeProvider = "opaybd" →
      OpayService.isConfigured env.opaySettings = true →
      env.opayPaymentUrl = .ok url →
      PaymentRouter.createCheckoutSession env =
        (.ok { provider := "opaybd", clientSecret := none,
               sessionId := none, paymentUrl := some url },
         [.opayCreatePayment])) := by
  constructor
  · intro session cs hne hs hcs hcsne
    simp [PaymentRouter.createCheckoutSession, hne, hs, hcs, hcsne]
  · intro url hp hconf hurl
    simp [PaymentRouter.createCheckoutSession, hp, hconf, hurl]

/-- Witness for C5: one concrete Stripe-branch run and one concrete
configured Opaybd-branch run. -/
theorem C5_witness :
    PaymentRouter.createCheckoutSession
      { activeProvider := "stripe", opaySettings := .ok { apiKey := "" },
        opayPaymentUrl := .error "unused",
        stripeSession := .ok { client_secret := some "cs_123", id := "sess_9" } } =
      (.ok { provider := "stripe", clientSecret := some "cs_123",
             sessionId := some "sess_9", paymentUrl := none },
       [.stripeCreateSession]) ∧
    PaymentRouter.createCheckoutSession
      { activeProvider := "opaybd", opaySettings := .ok { apiKey := "key" },
        opayPaymentUrl := .ok "https://pay.example/redirect",
        stripeSession := .error "unused" } =
      (.ok { provider := "opaybd", clientSecret := none,
             sessionId := none, paymentUrl := some "https://pay.example/redirect" },
       [.opayCreatePayment]) :=
  ⟨(C5_checkout_provider_shapes _).1 { client_secret := some "cs_123", id := "sess_9" }
      "cs_123" (by decide) rfl rfl (by decide),
   (C5_checkout_provider_shapes _).2 "https://pay.example/redirect" rfl (by decide) rfl⟩

/-! ### Claim C6 -/

/-- C6: `getActiveSubscription` queries Stripe first and returns its
subscription annotated `provider = "stripe"` whenever Stripe has one (so a
user with simultaneously active subscriptions under both providers always
gets the Stripe one); only when Stripe has none is the regional gateway
consulted, annotated `provider = "opaybd"`; the result is `null` exactly when
neither provider has an active subscription. -/
theorem C6_router_stripe_priority {α : Type} (stripeResult : Option α)
    (db : DB) (userId : String) :
    (∀ payload, stripeResult = some payload →
      PaymentRouter.getActiveSubscription stripeResult db userId =
        some (.stripe payload) ∧
      ∀ r, PaymentRouter.getActiveSubscription stripeResult db userId = some r →
        r.provider = "stripe") ∧
    (∀ sub plan, stripeResult = none →
      OpayService.getActiveSubscription db userId = some (sub, plan) →
      PaymentRouter.getActiveSubscription stripeResult db userId =
        some (.opaybd sub plan) ∧
      ∀ r, PaymentRouter.getActiveSubscription stripeResult db userId = some r →
        r.provider = "opaybd") ∧
    (PaymentRouter.getActiveSubscription stripeResult db userId = none ↔
      stripeResult = none ∧ OpayService.getActiveSubscription db userId = none) := by
  refine ⟨?_, ?_, ?_⟩
  · intro payload hs
    subst hs
    refine ⟨rfl, ?_⟩
    intro r hr
    simp only [PaymentRouter.getActiveSubscription, Option.some.injEq] at hr
    subst hr
    rfl
  · intro sub plan hs ho
    subst hs
    constructor
    · simp [PaymentRouter.getActiveSubscription, ho]
    · intro r hr
      simp only [PaymentRouter.getActiveSubscription, ho, Option.some.injEq] at hr
      subst hr
      rfl
  · cases stripeResult with
    | some payload => simp [PaymentRouter.getActiveSubscription]
    | none =>
      cases ho : OpayService.getActiveSubscription db userId with
      | none => simp [PaymentRouter.getActiveSubscription, ho]
      | some sp => simp [PaymentRouter.getActiveSubscription, ho]

/-- Witness for C6: a user holding active subscriptions under both providers
at once gets the Stripe one; with Stripe absent the Opaybd one surfaces. -/
theorem C6_witness :
    PaymentRouter.getActiveSubscription (α := String) (some "stripe-sub")
      { users := [], pricingPlans := [], paymentHistory := [], nextId := 1,
        subscriptions := [{ id := 0, userId := "u1", stripeSubscriptionId := "opay_t1",
                            stripePriceId := "price_1", planTier := "pro",
                            previousPlanTier := none, status := "active",
                            currentPeriodStart := 0, currentPeriodEnd := 2678400000,
                            planChangedAt := none, paymentProvider := "opaybd",
                            opayTransactionId := some "t1", renewalRequired := false,
                            lastPaymentAmount := some 500, updatedAt := 0 }] }
      "u1" = some (.stripe "stripe-sub") ∧
    PaymentRouter.getActiveSubscription (α := String) none
      { users := [], pricingPlans := [], paymentHistory := [], nextId := 1,
        subscriptions := [{ id := 0, userId := "u1", stripeSubscriptionId := "opay_t1",
                            stripePriceId := "price_1", planTier := "pro",
                            previousPlanTier := none, status := "active",
                            currentPeriodStart := 0, currentPeriodEnd := 2678400000,
                            planChangedAt := none, paymentProvider := "opaybd",
                            opayTransactionId := some "t1", renewalRequired := false,
                            lastPaymentAmount := some 500, updatedAt := 0 }] }
      "u1" =
      some (.opaybd { id := 0, userId := "u1", stripeSubscriptionId := "opay_t1",
                      stripePriceId := "price_1", planTier := "pro",
                      previousPlanTier := none, status := "active",
                      currentPeriodStart := 0, currentPeriodEnd := 2678400000,
                      planChangedAt := none, paymentProvider := "opaybd",
                      opayTransactionId := some "t1", renewalRequired := false,
                      lastPaymentAmount := some 500, updatedAt := 0 } none) :=
  ⟨((C6_router_stripe_priority (some "stripe-sub") _ "u1").1 "stripe-sub" rfl).1,
   ((C6_router_stripe_priority none _ "u1").2.1 _ none rfl (by decide)).1⟩

/-! ### Claim C7 -/

/-- C7: `checkRenewalRequired` returns `null` exactly when the user has no
active Opaybd subscription flagged `renewalRequired`; otherwise it returns the
plan tier, `daysRemaining = ceil((currentPeriodEnd - now) / 86400000)` — a
value that may be negative, not clamped at zero — and the expiry timestamp.
The function is a pure read (the database is no part of its result type), so
repeated calls are idempotent. -/
theorem C7_renewal_countdown (db : DB) (userId : String) (now : Int) :
    (PaymentRouter.checkRenewalRequired db userId now = none ↔
      ∀ s ∈ db.subscriptions,
        ¬(s.userId = userId ∧ s.paymentProvider = "opaybd" ∧
          s.renewalRequired = true ∧ s.status = "active")) ∧
    (∀ sub, OpayService.getSubscriptionNeedingRenewal db userId = some sub →
      PaymentRouter.checkRenewalRequired db userId now =
        some { planTier := if sub.planTier == "" then "unknown" else sub.planTier
               daysRemaining := ceilDiv (sub.currentPeriodEnd - now) 86400000
               expiresAt := sub.currentPeriodEnd }) := by
  constructor
  · have hiff : PaymentRouter.checkRenewalRequired db userId now = none ↔
        OpayService.getSubscriptionNeedingRenewal db userId = none := by
      cases hf : OpayService.getSubscriptionNeedingRenewal db userId with
      | none => simp [PaymentRouter.checkRenewalRequired, hf]
      | some sub => simp [PaymentRouter.checkRenewalRequired, hf]
    rw [hiff, OpayService.getSubscriptionNeedingRenewal, List.find?_eq_none]
    constructor
    · intro h s hs hc
      exact absurd (by simp [hc.1, hc.2.1, hc.2.2.1, hc.2.2.2] :
        (s.userId == userId && s.paymentProvider == "opaybd" &&
         s.renewalRequired == true && s.status == "active") = true) (h s hs)
    · intro h s hs hb
      simp only [Bool.and_eq_true, beq_iff_eq] at hb
      exact h s hs ⟨hb.1.1.1, hb.1.1.2, hb.1.2, hb.2⟩
  · intro sub hf
    simp [PaymentRouter.checkRenewalRequired, hf]

/-- Witness for C7: a flagged subscription expiring exactly 3 days in the
future yields `daysRemaining = 3`; one 2 days in the past yields `-2`
(negative, not clamped); and an unflagged database yields `null`. -/
theorem C7_witness :
    PaymentRouter.checkRenewalRequired
      (renewalFixtureDb "pro" (1700000000000 + 3 * 86400000)) "u1" 1700000000000 =
      some { planTier := "pro", daysRemaining := 3,
             expiresAt := 1700000000000 + 3 * 86400000 } ∧
    PaymentRouter.checkRenewalRequired
      (renewalFixtureDb "starter" (1700000000000 - 2 * 86400000)) "u1" 1700000000000 =
      some { planTier := "starter", daysRemaining := -2,
             expiresAt := 1700000000000 - 2 * 86400000 } ∧
    PaymentRouter.checkRenewalRequired
      { users := [], pricingPlans := [], paymentHistory := [], nextId := 0,
        subscriptions := [] } "u1" 1700000000000 = none := by
  refine ⟨?_, ?_, ?_⟩
  · have h := (C7_renewal_countdown
        (renewalFixtureDb "pro" (1700000000000 + 3 * 86400000)) "u1" 1700000000000).2
      (renewalFixtureSub "pro" (1700000000000 + 3 * 86400000)) (by decide)
    rw [h]
    decide
  · have h := (C7_renewal_countdown
        (renewalFixtureDb "starter" (1700000000000 - 2 * 86400000)) "u1" 1700000000000).2
      (renewalFixtureSub "starter" (1700000000000 - 2 * 86400000)) (by decide)
    rw [h]
    decide
  · exact (C7_renewal_countdown _ "u1" 1700000000000).1.2 (by simp)

/-! ### Claim C8 -/

/-- Predicate preservation lemma: `find?` over a `map` whose function leaves
the predicate invariant. -/
theorem find?_map_of_pred {α : Type} (f : α → α) (p : α → Bool) (l : List α)
    (h : ∀ x, p (f x) = p x) : (l.map f).find? p = (l.find? p).map f := by
  induction l with
  | nil => rfl
  | cons a t ih =>
    by_cases hpa : p a = true
    · simp [List.find?_cons, h a, hpa]
    · simp only [Bool.not_eq_true] at hpa
      simp [List.find?_cons, h a, hpa, ih]

/-- C8: `createPayment` charges `priceAmountBdt / 100` whenever the plan's
secondary-currency price is non-null (no warning), and falls back to
`priceAmount / 100` with the fallback warning when it is null; and an update
submitting an empty (or whitespace-only, or absent) BDT price field stores
`null`, reads back as `null` (not `0`), and sends that plan down the
fallback-with-warning path. -/
theorem C8_bdt_roundtrip_and_fallback
    (db : DB) (planId userId : String) (form : PlanForm) (now : Int)
    (u : User) (p : Plan)
    (hu : db.users.find? (fun x => x.id == userId) = some u)
    (hp : loadPlan db planId = some p)
    (hname : truthyStr form.name = true) (htier0 : truthyStr form.tier = true)
    (hsp : truthyStr form.stripePriceId = true)
    (hpa : truthyStr form.priceAmount = true)
    (hbi0 : truthyStr form.billingInterval = true)
    (htier : (["free", "starter", "pro", "advanced"].contains (form.tier.getD "")) = true)
    (hbi : (["month", "year"].contains (form.billingInterval.getD "")) = true)
    (n : Int) (hn : jsParseInt (form.priceAmount.getD "") = some n) (hn0 : ¬n < 0)
    (hbdt : form.priceAmountBdt = none ∨
      ∃ s, form.priceAmountBdt = some s ∧ jsTrim s = "") :
    (∀ (db3 : DB) (uid pid : String) (u3 : User) (q : Plan) (b : Int),
      db3.users.find? (fun x => x.id == uid) = some u3 →
      db3.pricingPlans.find? (fun x => x.id == pid) = some q →
      q.priceAmountBdt = some b →
      OpayService.createPayment db3 uid pid = .ok ((b : ℚ) / 100, false)) ∧
    ∃ db2, updatePlanAction false db planId form now = .ok db2 ∧
      ∃ p2, loadPlan db2 planId = some p2 ∧
        p2.priceAmountBdt = none ∧ p2.priceAmount = n ∧
        OpayService.createPayment db2 userId planId = .ok ((n : ℚ) / 100, true) := by
  constructor
  · intro db3 uid pid u3 q b hu3 hq hqb
    simp only [OpayService.createPayment]
    rw [hu3, hq]
    simp [hqb]
  have hparse : parseBdtField form.priceAmountBdt = .ok none := by
    rcases hbdt with h | ⟨s, hs, ht⟩
    · simp [parseBdtField, h]
    · simp [parseBdtField, hs, ht]
  have hreq : (!truthyStr form.name || !truthyStr form.tier ||
      !truthyStr form.stripePriceId || !truthyStr form.priceAmount ||
      !truthyStr form.billingInterval) = false := by
    simp [hname, htier0, hsp, hpa, hbi0]
  have htierP : form.tier.getD "" = "free" ∨ form.tier.getD "" = "starter" ∨
      form.tier.getD "" = "pro" ∨ form.tier.getD "" = "advanced" := by
    simpa using htier
  have hbiP : form.billingInterval.getD "" = "month" ∨
      form.billingInterval.getD "" = "year" := by
    simpa using hbi
  have hrun : updatePlanAction false db planId form now =
      .ok { db with pricingPlans := db.pricingPlans.map (fun (q : Plan) =>
        if q.id == planId then
          { q with
            name := form.name.getD ""
            tier := form.tier.getD ""
            stripePriceId := form.stripePriceId.getD ""
            priceAmount := n
            priceAmountBdt := none
            currency := strOr form.currency "usd"
            billingInterval := form.billingInterval.getD ""
            textGenerationLimit := parseLimitField form.textGenerationLimit
            imageGenerationLimit := parseLimitField form.imageGenerationLimit
            videoGenerationLimit := parseLimitField form.videoGenerationLimit
            audioGenerationLimit := parseLimitField form.audioGenerationLimit
            features := parseFeatures form.features
            isActive := form.isActive
            updatedAt := now }
        else q) } := by
    simp only [updatePlanAction, hreq, hn, hn0, hparse]
    simp only [htier, hbi, Bool.not_true, Bool.false_eq_true, if_false,
      ite_false, ite_true]
  refine ⟨_, hrun, ?_⟩
  have hfind : (db.pricingPlans.map (fun (q : Plan) =>
      if q.id == planId then
        { q with
          name := form.name.getD ""
          tier := form.tier.getD ""
          stripePriceId := form.stripePriceId.getD ""
          priceAmount := n
          priceAmountBdt := none
          currency := strOr form.currency "usd"
          billingInterval := form.billingInterval.getD ""
          textGenerationLimit := parseLimitField form.textGenerationLimit
          imageGenerationLimit := parseLimitField form.imageGenerationLimit
          videoGenerationLimit := parseLimitField form.videoGenerationLimit
          audioGenerationLimit := parseLimitField form.audioGenerationLimit
          features := parseFeatures form.features
          isActive := form.isActive
          updatedAt := now }
      else q)).find? (fun q => q.id == planId) =
      (db.pricingPlans.find? (fun q => q.id == planId)).map (fun (q : Plan) =>
        if q.id == planId then
          { q with
            name := form.name.getD ""
            tier := form.tier.getD ""
            stripePriceId := form.stripePriceId.getD ""
            priceAmount := n
            priceAmountBdt := none
            currency := strOr form.currency "usd"
            billingInterval := form.billingInterval.getD ""
            textGenerationLimit := parseLimitField form.textGenerationLimit
            imageGenerationLimit := parseLimitField form.imageGenerationLimit
            videoGenerationLimit := parseLimitField form.videoGenerationLimit
            audioGenerationLimit := parseLimitField form.audioGenerationLimit
            features := parseFeatures form.features
            isActive := form.isActive
            updatedAt := now }
        else q) := by
    apply find?_map_of_pred
    intro x
    by_cases hx : (x.id == planId) = true
    · simp [hx]
    · simp only [Bool.not_eq_true] at hx
      simp [hx]
  have hpfind : db.pricingPlans.find? (fun q => q.id == planId) = some p := hp
  have hpid : (p.id == planId) = true := by
    have h := List.find?_some hpfind
    simpa using h
  have hpe : p.id = planId := by simpa using hpid
  refine ⟨{ p with
      name := form.name.getD ""
      tier := form.tier.getD ""
      stripePriceId := form.stripePriceId.getD ""
      priceAmount := n
      priceAmountBdt := none
      currency := strOr form.currency "usd"
      billingInterval := form.billingInterval.getD ""
      textGenerationLimit := parseLimitField form.textGenerationLimit
      imageGenerationLimit := parseLimitField form.imageGenerationLimit
      videoGenerationLimit := parseLimitField form.videoGenerationLimit
      audioGenerationLimit := parseLimitField form.audioGenerationLimit
      features := parseFeatures form.features
      isActive := form.isActive
      updatedAt := now }, ?_, ?_, ?_, ?_⟩
  · show (List.find? _ (List.map _ db.pricingPlans)) = _
    rw [hfind, hpfind]
    simp [hpe]
  · rfl
  · rfl
  · simp only [OpayService.createPayment]
    rw [show (({ db with pricingPlans := db.pricingPlans.map (fun (q : Plan) =>
        if q.id == planId then
          { q with
            name := form.name.getD ""
            tier := form.tier.getD ""
            stripePriceId := form.stripePriceId.getD ""
            priceAmount := n
            priceAmountBdt := none
            currency := strOr form.currency "usd"
            billingInterval := form.billingInterval.getD ""
            textGenerationLimit := parseLimitField form.textGenerationLimit
            imageGenerationLimit := parseLimitField form.imageGenerationLimit
            videoGenerationLimit := parseLimitField form.videoGenerationLimit
            audioGenerationLimit := parseLimitField form.audioGenerationLimit
            features := parseFeatures form.features
            isActive := form.isActive
            updatedAt := now }
        else q) } : DB)).users = db.users from rfl]
    rw [hu, hfind, hpfind]
    simp [hpe]

/-- Witness for C8: the plan starts with BDT price 5000 paisa (charged as
50 BDT, no warning); updating it with a whitespace-only BDT field stores and
reads back `null` and switches `createPayment` to the 29.99 primary-amount
fallback with the warning. -/
theorem C8_witness :
    OpayService.createPayment c8Db "u1" "plan1" = .ok ((5000 : ℚ) / 100, false) ∧
    ∃ db2, updatePlanAction false c8Db "plan1" c8Form 5 = .ok db2 ∧
      ∃ p2, loadPlan db2 "plan1" = some p2 ∧
        p2.priceAmountBdt = none ∧ p2.priceAmount = 2999 ∧
        OpayService.createPayment db2 "u1" "plan1" = .ok ((2999 : ℚ) / 100, true) := by
  have h := C8_bdt_roundtrip_and_fallback c8Db "plan1" "u1" c8Form 5
    { id := "u1", name := "N", email := "e@x", planTier := "free",
      subscriptionStatus := "none" }
    c8Plan (by decide) (by decide) (by decide) (by decide) (by decide)
    (by decide) (by decide) (by decide) (by decide) 2999 (by decide) (by decide)
    (Or.inr ⟨"  ", rfl, by decide⟩)
  exact ⟨h.1 c8Db "u1" "plan1"
      { id := "u1", name := "N", email := "e@x", planTier := "free",
        subscriptionStatus := "none" }
      c8Plan 5000 (by decide) (by decide) rfl, h.2⟩

/-! ### Claim C2 -/

/-- Incrementing a category leaves the row's (user, month, year) key intact. -/
theorem rowMatches_increment (uid : String) (m y : Int) (r : UsageRow)
    (c : UsageCategory) :
    UsageTrackingService.rowMatches uid m y (r.increment c) =
      UsageTrackingService.rowMatches uid m y r := by
  cases c <;> rfl

/-- Incrementing a category raises exactly that category's counter by one. -/
theorem countFor_increment (r : UsageRow) (c : UsageCategory) :
    (r.increment c).countFor c = r.countFor c + 1 := by
  cases c <;> rfl

/-- Running `trackUsage` raises the tracked key's counter for the tracked
category by exactly one, whether the row pre-exists or is upserted. -/
theorem currentCount_trackUsage (rows : List UsageRow) (uid : String)
    (m y : Int) (c : UsageCategory) :
    UsageTrackingService.currentCount
        (UsageTrackingService.trackUsage rows uid m y c) uid m y c =
      UsageTrackingService.currentCount rows uid m y c + 1 := by
  cases hf : rows.find? (UsageTrackingService.rowMatches uid m y) with
  | none =>
    have hm : UsageTrackingService.rowMatches uid m y
        (UsageRow.increment
          { userId := uid, month := m, year := y, textGenerationCount := 0,
            imageGenerationCount := 0, videoGenerationCount := 0,
            audioGenerationCount := 0 } c) = true := by
      rw [rowMatches_increment]
      simp [UsageTrackingService.rowMatches]
    simp only [UsageTrackingService.trackUsage, UsageTrackingService.currentCount, hf]
    rw [List.find?_append, hf]
    simp only [List.find?_cons, hm, Option.orElse, List.find?_nil]
    cases c <;> simp [UsageRow.countFor, UsageRow.increment]
  | some r =>
    simp only [UsageTrackingService.trackUsage, UsageTrackingService.currentCount, hf]
    rw [find?_map_of_pred _ _ _ (fun x => by
      by_cases hx : UsageTrackingService.rowMatches uid m y x = true
      · simp [hx, rowMatches_increment]
      · simp only [Bool.not_eq_true] at hx
        simp [hx])]
    rw [hf]
    have hr : UsageTrackingService.rowMatches uid m y r = true := List.find?_some hf
    simp [hr, countFor_increment]

/-- Counter value after `k` successive `trackUsage` calls. -/
theorem currentCount_trackN (rows : List UsageRow) (uid : String)
    (m y : Int) (c : UsageCategory) (k : Nat) :
    UsageTrackingService.currentCount
        (UsageTrackingService.trackN rows uid m y c k) uid m y c =
      UsageTrackingService.currentCount rows uid m y c + k := by
  induction k with
  | zero => simp [UsageTrackingService.trackN]
  | succ k ih =>
    simp only [UsageTrackingService.trackN, currentCount_trackUsage, ih]
    omega

/-- C2 (spec-modelled, the usage-tracking source being outside the snapshot):
`checkUsageLimit` fails with the typed usage-limit error — always carrying
remaining quota `0` — exactly when the plan's limit for the category is
non-null and the current month's counter has reached it; a null limit never
fails; and starting from a fresh month, the first `limit` `trackUsage`
increments leave `checkUsageLimit` succeeding while the call after the
`limit`-th increment fails with remaining quota `0`.  The checker mutates
nothing: its result type carries no state. -/
theorem C2_usage_limit_boundary (rows : List UsageRow) (plan : Plan)
    (uid : String) (month year : Int) (c : UsageCategory) :
    ((∃ e, UsageTrackingService.checkUsageLimit rows plan uid month year c =
        .error e) ↔
      (∃ l, plan.limitFor c = some l ∧
        l ≤ UsageTrackingService.currentCount rows uid month year c)) ∧
    (∀ e, UsageTrackingService.checkUsageLimit rows plan uid month year c =
        .error e → e.remainingQuota = 0) ∧
    (plan.limitFor c = none →
      UsageTrackingService.checkUsageLimit rows plan uid month year c = .ok ()) ∧
    (∀ l : Int, plan.limitFor c = some l →
      UsageTrackingService.currentCount rows uid month year c = 0 →
      (∀ k : Nat, (k : Int) < l →
        UsageTrackingService.checkUsageLimit
          (UsageTrackingService.trackN rows uid month year c k)
          plan uid month year c = .ok ()) ∧
      (∀ k : Nat, (k : Int) = l →
        UsageTrackingService.checkUsageLimit
          (UsageTrackingService.trackN rows uid month year c k)
          plan uid month year c =
          .error { message := "Usage limit exceeded", remainingQuota := 0 })) := by
  refine ⟨?_, ?_, ?_, ?_⟩
  · constructor
    · rintro ⟨e, he⟩
      cases hl : plan.limitFor c with
      | none => simp [UsageTrackingService.checkUsageLimit, hl] at he
      | some l =>
        refine ⟨l, rfl, ?_⟩
        by_contra hlt
        simp [UsageTrackingService.checkUsageLimit, hl, hlt] at he
    · rintro ⟨l, hl, hle⟩
      refine ⟨{ message := "Usage limit exceeded",
                remainingQuota := max (l -
                  UsageTrackingService.currentCount rows uid month year c) 0 }, ?_⟩
      simp [UsageTrackingService.checkUsageLimit, hl, hle]
  · intro e he
    cases hl : plan.limitFor c with
    | none => simp [UsageTrackingService.checkUsageLimit, hl] at he
    | some l =>
      by_cases hle : l ≤ UsageTrackingService.currentCount rows uid month year c
      · simp only [UsageTrackingService.checkUsageLimit, hl, hle, if_true,
          Except.error.injEq] at he
        subst he
        simp only []
        omega
      · simp [UsageTrackingService.checkUsageLimit, hl, hle] at he
  · intro hl
    simp [UsageTrackingService.checkUsageLimit, hl]
  · intro l hl hzero
    constructor
    · intro k hk
      have hc := currentCount_trackN rows uid month year c k
      rw [hzero] at hc
      have : ¬ l ≤ UsageTrackingService.currentCount
          (UsageTrackingService.trackN rows uid month year c k) uid month year c := by
        omega
      simp [UsageTrackingService.checkUsageLimit, hl, this]
    · intro k hk
      have hc := currentCount_trackN rows uid month year c k
      rw [hzero] at hc
      have hle : l ≤ UsageTrackingService.currentCount
          (UsageTrackingService.trackN rows uid month year c k) uid month year c := by
        omega
      have hq : max (l - UsageTrackingService.currentCount
          (UsageTrackingService.trackN rows uid month year c k) uid month year c) 0 = 0 := by
        omega
      simp [UsageTrackingService.checkUsageLimit, hl, hle, hq]

/-- Witness for C2: with an audio limit of 2 and a fresh month, the check
succeeds before and after the first increment, and fails with remaining quota
0 after the second; the null text limit never fails even at counter
1000000. -/
theorem C2_witness :
    UsageTrackingService.checkUsageLimit [] c2Plan "u1" 5 2024
      UsageCategory.audio = .ok () ∧
    UsageTrackingService.checkUsageLimit
      (UsageTrackingService.trackN [] "u1" 5 2024 UsageCategory.audio 1)
      c2Plan "u1" 5 2024 UsageCategory.audio = .ok () ∧
    UsageTrackingService.checkUsageLimit
      (UsageTrackingService.trackN [] "u1" 5 2024 UsageCategory.audio 2)
      c2Plan "u1" 5 2024 UsageCategory.audio =
      .error { message := "Usage limit exceeded", remainingQuota := 0 } ∧
    UsageTrackingService.checkUsageLimit [c2BigRow] c2Plan "u1" 5 2024
      UsageCategory.text = .ok () := by
  have h := (C2_usage_limit_boundary [] c2Plan "u1" 5 2024
    UsageCategory.audio).2.2.2 2 rfl rfl
  refine ⟨?_, ?_, ?_, ?_⟩
  · exact h.1 0 (by decide)
  · exact h.1 1 (by decide)
  · exact h.2 2 (by decide)
  · exact (C2_usage_limit_boundary [c2BigRow] c2Plan "u1" 5 2024
      UsageCategory.text).2.2.1 rfl

/-! ### Claim C9 -/

/-- C9: `markExpiredSubscriptionsForRenewal` flags (sets `renewalRequired`
with a touched `updatedAt`) exactly the active, not-yet-flagged Opaybd
subscriptions whose period end has passed, leaves every other subscription —
and every other table — unchanged, returns the count it flagged, and an
immediately repeated invocation flags nothing and returns 0. -/
theorem C9_mark_expired_batch (db : DB) (now : Int) :
    (OpayService.markExpiredSubscriptionsForRenewal db now).2 =
      (db.subscriptions.filter (OpayService.isExpiredUnflagged now)).length ∧
    (OpayService.markExpiredSubscriptionsForRenewal db now).1.subscriptions =
      db.subscriptions.map (fun s =>
        if OpayService.isExpiredUnflagged now s then
          { s with renewalRequired := true, updatedAt := now }
        else s) ∧
    (OpayService.markExpiredSubscriptionsForRenewal db now).1.users = db.users ∧
    (OpayService.markExpiredSubscriptionsForRenewal db now).1.pricingPlans =
      db.pricingPlans ∧
    (OpayService.markExpiredSubscriptionsForRenewal db now).1.paymentHistory =
      db.paymentHistory ∧
    OpayService.markExpiredSubscriptionsForRenewal
        (OpayService.markExpiredSubscriptionsForRenewal db now).1 now =
      ((OpayService.markExpiredSubscriptionsForRenewal db now).1, 0) := by
  have hpost : ∀ s : Subscription, OpayService.isExpiredUnflagged now
      (if OpayService.isExpiredUnflagged now s then
        { s with renewalRequired := true, updatedAt := now }
      else s) = false := by
    intro s
    by_cases hs : OpayService.isExpiredUnflagged now s = true
    · simp only [hs, if_true]
      simp [OpayService.isExpiredUnflagged]
    · simp only [Bool.not_eq_true] at hs
      simp [hs]
  by_cases hz : (db.subscriptions.filter (OpayService.isExpiredUnflagged now)).length = 0
  · have hnil : db.subscriptions.filter (OpayService.isExpiredUnflagged now) = [] :=
      List.length_eq_zero.mp hz
    have hnone : ∀ s ∈ db.subscriptions, ¬OpayService.isExpiredUnflagged now s = true :=
      List.filter_eq_nil_iff.mp hnil
    have hid : db.subscriptions.map (fun s =>
        if OpayService.isExpiredUnflagged now s then
          { s with renewalRequired := true, updatedAt := now }
        else s) = db.subscriptions := by
      apply map_id_of_mem
      intro x hx
      have hxf : OpayService.isExpiredUnflagged now x = false := by
        simpa using hnone x hx
      simp [hxf]
    have hrun : OpayService.markExpiredSubscriptionsForRenewal db now = (db, 0) := by
      simp [OpayService.markExpiredSubscriptionsForRenewal, hz]
    rw [hrun]
    refine ⟨hz.symm ▸ rfl, hid.symm, rfl, rfl, rfl, hrun⟩
  · have hrun : OpayService.markExpiredSubscriptionsForRenewal db now =
        ({ db with subscriptions := db.subscriptions.map (fun s =>
            if OpayService.isExpiredUnflagged now s then
              { s with renewalRequired := true, updatedAt := now }
            else s) },
         (db.subscriptions.filter (OpayService.isExpiredUnflagged now)).length) := by
      simp [OpayService.markExpiredSubscriptionsForRenewal, hz]
    rw [hrun]
    have hfilter2 : (db.subscriptions.map (fun s =>
        if OpayService.isExpiredUnflagged now s then
          { s with renewalRequired := true, updatedAt := now }
        else s)).filter (OpayService.isExpiredUnflagged now) = [] := by
      rw [List.filter_eq_nil_iff]
      intro a ha
      rcases List.mem_map.mp ha with ⟨s, _, hs⟩
      rw [← hs]
      simp [hpost s]
    refine ⟨rfl, rfl, rfl, rfl, rfl, ?_⟩
    simp [OpayService.markExpiredSubscriptionsForRenewal, hfilter2]

/-- Witness for C9: the expired Opaybd subscription is flagged and counted,
the Stripe one is untouched, and the immediate second sweep returns 0. -/
theorem C9_witness :
    (OpayService.markExpiredSubscriptionsForRenewal
      { users := [], subscriptions := [c9Expired, c9Stripe], pricingPlans := [],
        paymentHistory := [], nextId := 2 } 2000).2 = 1 ∧
    (OpayService.markExpiredSubscriptionsForRenewal
      { users := [], subscriptions := [c9Expired, c9Stripe], pricingPlans := [],
        paymentHistory := [], nextId := 2 } 2000).1.subscriptions =
      [{ c9Expired with renewalRequired := true, updatedAt := 2000 }, c9Stripe] ∧
    OpayService.markExpiredSubscriptionsForRenewal
        (OpayService.markExpiredSubscriptionsForRenewal
          { users := [], subscriptions := [c9Expired, c9Stripe], pricingPlans := [],
            paymentHistory := [], nextId := 2 } 2000).1 2000 =
      ((OpayService.markExpiredSubscriptionsForRenewal
          { users := [], subscriptions := [c9Expired, c9Stripe], pricingPlans := [],
            paymentHistory := [], nextId := 2 } 2000).1, 0) := by
  have h := C9_mark_expired_batch
    { users := [], subscriptions := [c9Expired, c9Stripe], pricingPlans := [],
      paymentHistory := [], nextId := 2 } 2000
  refine ⟨?_, ?_, h.2.2.2.2.2⟩
  · rw [h.1]
    decide
  · rw [h.2.1]
    decide

/-! ### Claim C3 -/

/-- Characterisation of a successful `handlePaymentSuccess` run when the user
has no existing Opaybd subscription: one new subscription row is inserted and
the fresh-id counter advances. -/
theorem handlePaymentSuccess_insert_facts
    (wire : OpayWireVerification) (m : OpayMetadataFields)
    (params : OpayCallbackParams) (now : Int) (db : DB)
    (hm : wire.metadataJson = .ok m) (hst : wire.status = "COMPLETED")
    (hu : m.userId ≠ "") (hpt : m.planTier ≠ "")
    (hfind : db.subscriptions.find? (OpayService.isOpaySubOf m.userId) = none) :
    (OpayService.handlePaymentSuccess (.ok wire) params now db).1 = .ok () ∧
    (OpayService.handlePaymentSuccess (.ok wire) params now db).2.subscriptions =
      db.subscriptions ++ [OpayService.newOpaySub m params now db.nextId] ∧
    (OpayService.handlePaymentSuccess (.ok wire) params now db).2.nextId =
      db.nextId + 1 := by
  have hu' : (m.userId == "") = false := beq_eq_false_iff_ne.mpr hu
  have hpt' : (m.planTier == "") = false := beq_eq_false_iff_ne.mpr hpt
  simp [OpayService.handlePaymentSuccess, OpayService.verifyPayment, hm, hst,
    hu', hpt', hfind]

/-- Characterisation of a successful `handlePaymentSuccess` run when the user
already holds an Opaybd subscription `e`: the rows with `e`'s id are updated
in place, nothing is inserted, and the fresh-id counter is untouched. -/
theorem handlePaymentSuccess_update_facts
    (wire : OpayWireVerification) (m : OpayMetadataFields)
    (params : OpayCallbackParams) (now : Int) (db : DB) (e : Subscription)
    (hm : wire.metadataJson = .ok m) (hst : wire.status = "COMPLETED")
    (hu : m.userId ≠ "") (hpt : m.planTier ≠ "")
    (hfind : db.subscriptions.find? (OpayService.isOpaySubOf m.userId) = some e) :
    (OpayService.handlePaymentSuccess (.ok wire) params now db).1 = .ok () ∧
    (OpayService.handlePaymentSuccess (.ok wire) params now db).2.subscriptions =
      db.subscriptions.map (fun s =>
        if s.id == e.id then OpayService.renewedOpaySub e m params now else s) ∧
    (OpayService.handlePaymentSuccess (.ok wire) params now db).2.nextId =
      db.nextId := by
  have hu' : (m.userId == "") = false := beq_eq_false_iff_ne.mpr hu
  have hpt' : (m.planTier == "") = false := beq_eq_false_iff_ne.mpr hpt
  simp [OpayService.handlePaymentSuccess, OpayService.verifyPayment, hm, hst,
    hu', hpt', hfind]

/-- C3: invoked twice for the same transaction, with the second verification
still reporting `COMPLETED` against the already-updated subscription,
`handlePaymentSuccess` updates the existing Opaybd subscription in place — no
second row, same row id — and the resulting `currentPeriodEnd` equals the
second call's computation of now-plus-one-month-or-one-year by billing
interval (last-write-wins, not a double extension). -/
theorem C3_idempotent_last_write_wins
    (wire : OpayWireVerification) (m : OpayMetadataFields)
    (params : OpayCallbackParams) (now1 now2 : Int) (db : DB)
    (hm : wire.metadataJson = .ok m) (hst : wire.status = "COMPLETED")
    (hu : m.userId ≠ "") (hpt : m.planTier ≠ "")
    (hNo : ∀ s ∈ db.subscriptions, OpayService.isOpaySubOf m.userId s = false)
    (hFresh : ∀ s ∈ db.subscriptions, s.id < db.nextId) :
    (OpayService.handlePaymentSuccess (.ok wire) params now1 db).1 = .ok () ∧
    (OpayService.handlePaymentSuccess (.ok wire) params now2
      (OpayService.handlePaymentSuccess (.ok wire) params now1 db).2).1 = .ok () ∧
    ((OpayService.handlePaymentSuccess (.ok wire) params now2
      (OpayService.handlePaymentSuccess (.ok wire) params now1 db).2).2).subscriptions.length =
      ((OpayService.handlePaymentSuccess (.ok wire) params now1 db).2).subscriptions.length ∧
    ∃ s : Subscription,
      ((OpayService.handlePaymentSuccess (.ok wire) params now2
        (OpayService.handlePaymentSuccess (.ok wire) params now1 db).2).2).subscriptions.filter
          (OpayService.isOpaySubOf m.userId) = [s] ∧
      s.currentPeriodEnd = computePeriodEnd now2 m.billingInterval ∧
      s.id = db.nextId := by
  have hfind1 : db.subscriptions.find? (OpayService.isOpaySubOf m.userId) = none :=
    List.find?_eq_none.mpr (fun x hx => by simp [hNo x hx])
  obtain ⟨hr1, hsubs1, hnext1⟩ :=
    handlePaymentSuccess_insert_facts wire m params now1 db hm hst hu hpt hfind1
  have hnewMatch : OpayService.isOpaySubOf m.userId
      (OpayService.newOpaySub m params now1 db.nextId) = true := by
    simp [OpayService.isOpaySubOf, OpayService.newOpaySub]
  have hfind2 : ((OpayService.handlePaymentSuccess (.ok wire) params now1 db).2).subscriptions.find?
      (OpayService.isOpaySubOf m.userId) =
      some (OpayService.newOpaySub m params now1 db.nextId) := by
    rw [hsubs1, List.find?_append, hfind1]
    simp [List.find?_cons, hnewMatch]
  obtain ⟨hr2, hsubs2, _⟩ :=
    handlePaymentSuccess_update_facts wire m params now2
      (OpayService.handlePaymentSuccess (.ok wire) params now1 db).2
      (OpayService.newOpaySub m params now1 db.nextId) hm hst hu hpt hfind2
  refine ⟨hr1, hr2, ?_, ?_⟩
  · rw [hsubs2, List.length_map]
  · have hnewId : (OpayService.newOpaySub m params now1 db.nextId).id = db.nextId := rfl
    have hmapOld : db.subscriptions.map (fun s =>
        if s.id == (OpayService.newOpaySub m params now1 db.nextId).id then
          OpayService.renewedOpaySub (OpayService.newOpaySub m params now1 db.nextId)
            m params now2
        else s) = db.subscriptions := by
      apply map_id_of_mem
      intro x hx
      have hxid : (x.id == db.nextId) = false := by
        have := hFresh x hx
        simp only [beq_eq_false_iff_ne]
        omega
      rw [hnewId, hxid]
      simp
    refine ⟨OpayService.renewedOpaySub (OpayService.newOpaySub m params now1 db.nextId)
      m params now2, ?_, rfl, rfl⟩
    rw [hsubs2, hsubs1, List.map_append, hmapOld]
    have hself : ((OpayService.newOpaySub m params now1 db.nextId).id ==
        (OpayService.newOpaySub m params now1 db.nextId).id) = true := by simp
    rw [List.filter_append]
    have hfilterOld : db.subscriptions.filter (OpayService.isOpaySubOf m.userId) = [] :=
      List.filter_eq_nil_iff.mpr (fun x hx => by simp [hNo x hx])
    have hrenewMatch : OpayService.isOpaySubOf m.userId
        (OpayService.renewedOpaySub (OpayService.newOpaySub m params now1 db.nextId)
          m params now2) = true := by
      simp [OpayService.isOpaySubOf, OpayService.renewedOpaySub, OpayService.newOpaySub]
    simp [hfilterOld, hself, hrenewMatch]

/-- Witness for C3: first call at epoch 0 inserts the subscription; the second
call one month later (1970-02-01) updates it in place, and its period end is
1970-03-01 (epoch-ms 5097600000) — the second call's now-plus-one-month, not a
double extension. -/
theorem C3_witness :
    (OpayService.handlePaymentSuccess (.ok c3Wire) c3Params 0 c3Db).1 = .ok () ∧
    (OpayService.handlePaymentSuccess (.ok c3Wire) c3Params 2678400000
      (OpayService.handlePaymentSuccess (.ok c3Wire) c3Params 0 c3Db).2).1 = .ok () ∧
    ((OpayService.handlePaymentSuccess (.ok c3Wire) c3Params 2678400000
      (OpayService.handlePaymentSuccess (.ok c3Wire) c3Params 0 c3Db).2).2).subscriptions.length =
      ((OpayService.handlePaymentSuccess (.ok c3Wire) c3Params 0 c3Db).2).subscriptions.length ∧
    subPeriodEndsAndIds
      (((OpayService.handlePaymentSuccess (.ok c3Wire) c3Params 2678400000
        (OpayService.handlePaymentSuccess (.ok c3Wire) c3Params 0 c3Db).2).2).subscriptions.filter
        (OpayService.isOpaySubOf c3Meta.userId)) = [(5097600000, 0)] := by
  obtain ⟨h1, h2, h3, s, hfil, hend, hid⟩ :=
    C3_idempotent_last_write_wins c3Wire c3Meta c3Params 0 2678400000 c3Db rfl rfl
      (by decide) (by decide) (by simp [c3Db]) (by simp [c3Db])
  refine ⟨h1, h2, h3, ?_⟩
  rw [hfil]
  simp only [subPeriodEndsAndIds, List.map_cons, List.map_nil, hend, hid]
  have : computePeriodEnd 2678400000 c3Meta.billingInterval = 5097600000 := by decide
  rw [this]
  rfl
